import Mathlib

/-!
Verification of `src/comparison_utils.py`: a report-formatting utility that
computes improvement percentages between a baseline scenario and two
comparison scenarios (exogenous, EEMD decomposition) and renders the result
as a styled multi-sheet workbook.

Numeric values are embedded as `ℚ` (exact rational arithmetic standing for
Python floats), missing values (`NaN` / `pd.isna`) as `Option` with `none`
for missing.  Strings are Lean `String`s.  Fallible steps (pandas `KeyError`
on a missing column) are embedded with `Except String`.
-/

/-! ## Python / pandas string primitives -/

/-- One step of Python `re` matching for the regex fragment in which every
pattern character is an atom matching exactly one input character: `.`
matches any character except a newline, and any other character matches
itself literally.  `reMatchHere pat s` decides whether the pattern matches a
prefix of `s`.  Patterns that use other regex metacharacters are outside the
modelled fragment. -/
def reMatchHere : List Char → List Char → Bool
  | [], _ => true
  | _ :: _, [] => false
  | p :: ps, c :: cs => (if p = '.' then c != '\n' else p == c) && reMatchHere ps cs

/-- `re.search` for the modelled fragment: the pattern may match starting at
any position of the input. -/
def reSearchAux (pat : List Char) : List Char → Bool
  | [] => reMatchHere pat []
  | c :: cs => reMatchHere pat (c :: cs) || reSearchAux pat cs

/-- Embedding of `Series.str.contains(label)` as used at
`src/comparison_utils.py:58-60`.  pandas' default is `regex=True`, i.e. the
label is a regular expression handed to Python `re.search`, not a literal
substring.  Modelled for patterns built from literal characters and the `.`
wildcard. -/
def pdStrContains (s pat : String) : Bool :=
  reSearchAux pat.data s.data

/-- Characters that are metacharacters of Python regular expressions.
`Char.ofNat 123` and `Char.ofNat 125` are the curly braces. -/
def regexSpecialChars : List Char :=
  ['.', '*', '+', '?', '^', '$', '|', '(', ')', '[', ']', '\\',
   Char.ofNat 123, Char.ofNat 125]

/-- A character with no special regex meaning. -/
def regexPlainChar (c : Char) : Bool := !(regexSpecialChars.contains c)

/-- Literal (non-regex) substring containment of `pat` in a character list.
This is the spec-side notion: the specification describes the partitioning
test as plain substring containment. -/
def listContainsSub (pat : List Char) : List Char → Bool
  | [] => pat.isEmpty
  | c :: cs => pat.isPrefixOf (c :: cs) || listContainsSub pat cs

/-- Spec-side definition: `label` occurs in `s` as a literal substring. -/
def strContainsLiteral (s pat : String) : Bool :=
  listContainsSub pat.data s.data

/-- Fuel-driven core of Python `str.replace` (all non-overlapping leftmost
occurrences replaced).  The fuel is the length of the scanned list, which
bounds the number of steps since each step consumes at least one character.
Used only with non-empty patterns (the code always passes `"-" + label`). -/
def replaceListAux (pat repl : List Char) : Nat → List Char → List Char
  | 0, s => s
  | Nat.succ fuel, s =>
    match s with
    | [] => []
    | c :: cs =>
      if !pat.isEmpty && pat.isPrefixOf (c :: cs) then
        repl ++ replaceListAux pat repl fuel (List.drop pat.length (c :: cs))
      else
        c :: replaceListAux pat repl fuel cs

/-- Embedding of Python `str.replace(pat, repl)` with `regex=False`, as used
by `Series.str.replace(f'-{label}', '', regex=False)` at
`src/comparison_utils.py:53-55`. -/
def strReplace (s pat repl : String) : String :=
  String.mk (replaceListAux pat.data repl.data s.data.length s.data)

/-! ## Decimal formatting (Python `format` specs `.3f`, `+.1f`, `+.2f`) -/

/-- Round a rational to the nearest integer, ties to even — the rounding
realised by Python float formatting read at exact-rational precision. -/
def roundHalfEven (q : ℚ) : ℤ :=
  let f := ⌊q⌋
  if q - f < 1 / 2 then f
  else if q - f > 1 / 2 then f + 1
  else if f % 2 = 0 then f else f + 1

/-- Pad a digit string on the left with zeros up to width `w`. -/
def padLeftZeros (w : ℕ) (s : String) : String :=
  String.mk (List.replicate (w - s.length) '0') ++ s

/-- The digits of a fixed-point rendering: integer part, a dot, and exactly
`decimals` fractional digits. -/
def fixedDigits (decimals : ℕ) (q : ℚ) : String :=
  let scaled := (roundHalfEven (q * (10 : ℚ) ^ decimals)).natAbs
  toString (scaled / 10 ^ decimals) ++ "." ++
    padLeftZeros decimals (toString (scaled % 10 ^ decimals))

/-- Python `format(q, '.3f')`-style fixed-point formatting: minus sign only
for negative values. -/
def formatFixed (decimals : ℕ) (q : ℚ) : String :=
  (if q < 0 then "-" else "") ++ fixedDigits decimals q

/-- Python `format(q, '+.1f')`-style formatting: the sign is always shown. -/
def formatSignedFixed (decimals : ℕ) (q : ℚ) : String :=
  (if q < 0 then "-" else "+") ++ fixedDigits decimals q

/-! ## `calculate_improvement` (src/comparison_utils.py lines 8-30) -/

/-- Embedding of `calculate_improvement(baseline_val, comparison_val,
metric)`.  `none` is NaN (the function returns `np.nan` when either input
is NaN via `pd.isna`, or when the baseline equals zero); otherwise the R2
branch divides the increase by `abs(baseline)` and every other metric
divides the decrease by `baseline` itself.  The function is total: the zero
baseline is guarded before any division. -/
def calculate_improvement (baseline_val comparison_val : Option ℚ)
    (metric : String) : Option ℚ :=
  match baseline_val, comparison_val with
  | none, _ => none
  | _, none => none
  | some b, some c =>
    if b = 0 then none
    else if metric = "R2" then some ((c - b) / |b| * 100)
    else some ((b - c) / b * 100)

/-! ## Data model -/

/-- One row of the input `results_df`: a `Model` string of the shape
`<ModelName>-<ScenarioLabel>` and the metric columns, read as a nullable
column lookup by metric name (`none` = NaN cell). -/
structure MetricRecord where
  Model : String
  values : String → Option ℚ

/-- One row of the table returned by `create_comparison_table`
(src/comparison_utils.py lines 92-100): the display strings and the raw
improvement percentages carried in the `exog_imp` / `eemd_imp` columns. -/
structure ComparisonRow where
  Model : String
  Baseline : String
  Exogenous : String
  EEMD : String
  exog_imp : Option ℚ
  eemd_imp : Option ℚ
deriving DecidableEq

/-! ## `create_comparison_table` (src/comparison_utils.py lines 33-103) -/

/-- The `ModelName` column (lines 53-55): strip `-<label>` for each of the
three labels (Python `str.replace` removes every occurrence, literally). -/
def bareName (b e d : String) (m : String) : String :=
  strReplace (strReplace (strReplace m ("-" ++ b) "") ("-" ++ e) "") ("-" ++ d) ""

/-- Scenario partition (lines 58-60): the records whose `Model` matches the
label under `Series.str.contains`. -/
def scenarioPartition (records : List MetricRecord) (label : String) :
    List MetricRecord :=
  records.filter (fun r => pdStrContains r.Model label)

/-- Value lookup inside a partition (lines 69-75): take the first record of
the partition whose bare model name equals `model` (`.values[0]`), missing
(`np.nan`) when there is none; the cell itself may also be missing. -/
def firstMetricValue (part : List MetricRecord) (b e d model metric : String) :
    Option ℚ :=
  (part.find? (fun r => bareName b e d r.Model == model)).bind
    (fun r => r.values metric)

/-- `pd.unique` order: first-appearance deduplication of a string column, as
`baseline_df['ModelName'].unique()` at line 63 produces. -/
def uniqueAux : List String → List String → List String
  | _, [] => []
  | seen, x :: xs =>
    if x ∈ seen then uniqueAux seen xs else x :: uniqueAux (x :: seen) xs

/-- Scenario cell display (lines 82-90): `N/A` when the value is missing,
`<value:.3f> (<imp:+.1f>%)` when value and improvement are both present,
`<value:.3f>` alone when the improvement is NaN. -/
def formatScenarioCell (v imp : Option ℚ) : String :=
  match v with
  | none => "N/A"
  | some x =>
    match imp with
    | some p => formatFixed 3 x ++ " (" ++ formatSignedFixed 1 p ++ "%)"
    | none => formatFixed 3 x

/-- The body of the `for model in model_names` loop (lines 68-100). -/
def buildRow (records : List MetricRecord) (metric b e d model : String) :
    ComparisonRow :=
  let baseline_val := firstMetricValue (scenarioPartition records b) b e d model metric
  let exog_val := firstMetricValue (scenarioPartition records e) b e d model metric
  let eemd_val := firstMetricValue (scenarioPartition records d) b e d model metric
  let exog_imp := calculate_improvement baseline_val exog_val metric
  let eemd_imp := calculate_improvement baseline_val eemd_val metric
  { Model := model
    Baseline := match baseline_val with
      | some x => formatFixed 3 x
      | none => "N/A"
    Exogenous := formatScenarioCell exog_val exog_imp
    EEMD := formatScenarioCell eemd_val eemd_imp
    exog_imp := exog_imp
    eemd_imp := eemd_imp }

/-- Embedding of `create_comparison_table(results_df, metric,
baseline_label, exog_label, eemd_label)`: one `ComparisonRow` per unique
bare model name of the baseline partition, in first-appearance order. -/
def create_comparison_table (records : List MetricRecord)
    (metric b e d : String) : List ComparisonRow :=
  (uniqueAux [] ((scenarioPartition records b).map
      (fun r => bareName b e d r.Model))).map
    (buildRow records metric b e d)

/-! ## `create_styled_excel` (src/comparison_utils.py lines 106-260) -/

/-- pandas `Series.mean()`: arithmetic mean of the non-missing entries,
NaN (`none`) when every entry is missing. -/
def seriesMean (xs : List (Option ℚ)) : Option ℚ :=
  let vs := xs.filterMap id
  if vs.length = 0 then none else some (vs.sum / vs.length)

/-- Conditional styling of a value cell (lines 183-204): the good
(green) fill/font when the improvement is strictly positive, the bad
(red) one when strictly negative, no improvement styling otherwise
(NaN comparisons are false in Python, so NaN is unstyled). -/
inductive ImpStyle where
  | unstyled
  | good
  | bad
deriving DecidableEq

/-- `improvementStyle imp` is the style the renderer applies for
improvement `imp` (lines 184-190 and 198-204). -/
def improvementStyle (imp : Option ℚ) : ImpStyle :=
  match imp with
  | none => ImpStyle.unstyled
  | some v => if v > 0 then ImpStyle.good
              else if v < 0 then ImpStyle.bad
              else ImpStyle.unstyled

/-- One rendered data row of a per-metric sheet (lines 160-204). -/
structure SheetDataRow where
  model : String
  baselineCell : String
  exogCell : String
  exogStyle : ImpStyle
  eemdCell : String
  eemdStyle : ImpStyle
deriving DecidableEq

/-- Render one comparison row into sheet cells and styles. -/
def renderDataRow (r : ComparisonRow) : SheetDataRow :=
  { model := r.Model
    baselineCell := r.Baseline
    exogCell := r.Exogenous
    exogStyle := improvementStyle r.exog_imp
    eemdCell := r.EEMD
    eemdStyle := improvementStyle r.eemd_imp }

/-- The `Average Improvement` cells, written `f-string +.2f` with a `%`
appended (line 216); Python formats NaN as `+nan`. -/
def formatAvgCell : Option ℚ → String
  | some v => formatSignedFixed 2 v ++ "%"
  | none => "+nan%"

/-- One per-metric worksheet: title, headers, rendered data rows, the two
column averages of the trailing `Average Improvement` row, and their
formatted cells. -/
structure MetricSheet where
  title : String
  headers : List String
  dataRows : List SheetDataRow
  avgExog : Option ℚ
  avgEemd : Option ℚ
  summaryExogCell : String
  summaryEemdCell : String
deriving DecidableEq

/-- Build one per-metric sheet (loop body, lines 138-223).  When the
comparison table is empty, `pd.DataFrame([])` has no columns at all, so the
column lookup `comparison_df['exog_imp']` at line 212 raises `KeyError`;
the embedding surfaces that as an `Except.error` (nothing of the sheet
survives: the workbook is never saved on that path). -/
def buildMetricSheet (records : List MetricRecord) (metric b e d : String) :
    Except String MetricSheet :=
  let comparison_df := create_comparison_table records metric b e d
  if comparison_df.isEmpty then Except.error "KeyError: exog_imp"
  else
    let avg_exog := seriesMean (comparison_df.map ComparisonRow.exog_imp)
    let avg_eemd := seriesMean (comparison_df.map ComparisonRow.eemd_imp)
    Except.ok
      { title := metric ++ " Comparison: Baseline vs Exogenous vs EEMD"
        headers := ["Model", "Baseline", "Exogenous (Δ%)", "EEMD (Δ%)"]
        dataRows := comparison_df.map renderDataRow
        avgExog := avg_exog
        avgEemd := avg_eemd
        summaryExogCell := formatAvgCell avg_exog
        summaryEemdCell := formatAvgCell avg_eemd }

/-- A sheet tagged with its metric name (worksheet title, line 143). -/
def buildMetricSheetNamed (records : List MetricRecord) (b e d : String)
    (metric : String) : Except String (String × MetricSheet) :=
  match buildMetricSheet records metric b e d with
  | Except.error msg => Except.error msg
  | Except.ok s => Except.ok (metric, s)

/-- One row of the cross-metric `Summary` sheet (lines 230-241): the two
averages formatted `+.2f` (NaN prints as `+nan`). -/
structure SummaryRow where
  Metric : String
  avgExogCell : String
  avgEemdCell : String
deriving DecidableEq

/-- `+.2f` cell of the summary sheet (lines 239-240), no percent sign. -/
def summarySheetCell : Option ℚ → String
  | some v => formatSignedFixed 2 v
  | none => "+nan"

/-- Build one summary-sheet row (lines 231-241); the comparison table is
recomputed and the same empty-frame `KeyError` applies (line 234). -/
def buildSummaryRow (records : List MetricRecord) (b e d : String)
    (metric : String) : Except String SummaryRow :=
  let comparison_df := create_comparison_table records metric b e d
  if comparison_df.isEmpty then Except.error "KeyError: exog_imp"
  else
    Except.ok
      { Metric := metric
        avgExogCell := summarySheetCell
          (seriesMean (comparison_df.map ComparisonRow.exog_imp))
        avgEemdCell := summarySheetCell
          (seriesMean (comparison_df.map ComparisonRow.eemd_imp)) }

/-- Sequential loop with exception propagation: the Python `for` loop stops
at the first raised exception. -/
def mapExcept {α β ε : Type} (f : α → Except ε β) : List α → Except ε (List β)
  | [] => Except.ok []
  | x :: xs =>
    match f x with
    | Except.error msg => Except.error msg
    | Except.ok y =>
      match mapExcept f xs with
      | Except.error msg => Except.error msg
      | Except.ok ys => Except.ok (y :: ys)

/-- The fixed metric order of the report (line 119). -/
def metricsList : List String := ["RMSE", "MAE", "MAPE", "R2", "AIC", "BIC"]

/-- The finished workbook: the six per-metric sheets (in metric order) and
the `Summary` sheet rows (the summary sheet is inserted first in the saved
file; field order here carries no meaning). -/
structure WorkbookModel where
  sheets : List (String × MetricSheet)
  summary : List SummaryRow
deriving DecidableEq

/-- Embedding of `create_styled_excel(results_df, output_path, ...)` up to
the `wb.save(output_path)` side effect: `Except.ok` is the workbook that
gets saved, `Except.error` a raised exception (the file is then never
written). -/
def create_styled_excel (records : List MetricRecord) (b e d : String) :
    Except String WorkbookModel :=
  match mapExcept (buildMetricSheetNamed records b e d) metricsList with
  | Except.error msg => Except.error msg
  | Except.ok sheets =>
    match mapExcept (buildSummaryRow records b e d) metricsList with
    | Except.error msg => Except.error msg
    | Except.ok rows => Except.ok { sheets := sheets, summary := rows }

/-! ## Concrete inputs used by the scenario theorems and witnesses -/

/-- Input record `{Model: "ARIMA-Base", RMSE: 10}` of spec Scenario 1. -/
def recBase : MetricRecord :=
  { Model := "ARIMA-Base", values := fun m => if m == "RMSE" then some 10 else none }

/-- Input record `{Model: "ARIMA-Exog", RMSE: 8}` of spec Scenario 1. -/
def recExog : MetricRecord :=
  { Model := "ARIMA-Exog", values := fun m => if m == "RMSE" then some 8 else none }

/-- The two-record input of spec Scenario 1. -/
def recordsARIMA : List MetricRecord := [recBase, recExog]

/-- An input whose only record matches no scenario label at all. -/
def recordsNoBase : List MetricRecord :=
  [{ Model := "ARIMA-X", values := fun _ => none }]

/-- Index of the first appearance of `x` in a list (length of the list when
absent); used to state the row-ordering property of the table. -/
def firstIdx (x : String) : List String → ℕ
  | [] => 0
  | y :: ys => if y = x then 0 else firstIdx x ys + 1

/-- The single comparison row produced by Scenario 1. -/
def rowARIMA : ComparisonRow :=
  buildRow recordsARIMA "RMSE" "Base" "Exog" "EEMD" "ARIMA"

/-- Fallback sheet for total projections below (never reached). -/
def emptySheet : MetricSheet :=
  { title := "", headers := [], dataRows := [], avgExog := none,
    avgEemd := none, summaryExogCell := "", summaryEemdCell := "" }

/-- Fallback workbook for total projections below (never reached). -/
def emptyWorkbook : WorkbookModel := { sheets := [], summary := [] }

/-- The workbook produced for Scenario 1's records. -/
def wbARIMA : WorkbookModel :=
  match create_styled_excel recordsARIMA "Base" "Exog" "EEMD" with
  | Except.ok wb => wb
  | Except.error _ => emptyWorkbook

/-- The RMSE sheet of that workbook. -/
def sheetRMSE_ARIMA : MetricSheet :=
  match buildMetricSheet recordsARIMA "RMSE" "Base" "Exog" "EEMD" with
  | Except.ok s => s
  | Except.error _ => emptySheet

/-- The first rendered data row of that RMSE sheet. -/
def drARIMA : SheetDataRow :=
  match sheetRMSE_ARIMA.dataRows with
  | dr :: _ => dr
  | [] => renderDataRow rowARIMA

/-! ## Evaluation helpers -/

/-- Rounding an exact integer is the identity. -/
theorem roundHalfEven_int (n : ℤ) : roundHalfEven (n : ℚ) = n := by
  unfold roundHalfEven
  norm_num

/-- Rounding helper for concrete formatting goals: when the scaled value is
an exact integer, the rounding returns it. -/
theorem roundHalfEven_eval (q : ℚ) (d : ℕ) (n : ℤ) (h : q * (10:ℚ) ^ d = (n:ℚ)) :
    roundHalfEven (q * (10:ℚ) ^ d) = n := by
  rw [h]; exact roundHalfEven_int n

/-! ## Claim theorems: calculate_improvement -/

/-- C1 (code divergence evaluated): at baseline `-2`, comparison `-1`,
metric `AIC` (lower is better, so `-1` is worse than `-2`), the code
returns `+50`, a strictly positive improvement although `c < b` fails —
the claimed sign equivalence `> 0 ↔ c < b` is violated because line 28
divides by `baseline_val` instead of its absolute value. -/
theorem calculate_improvement_negative_baseline_divergence :
    calculate_improvement (some (-2)) (some (-1)) "AIC" = some 50
      ∧ (0:ℚ) < 50 ∧ ¬ ((-1:ℚ) < (-2:ℚ)) := by
  refine ⟨?_, by norm_num, by norm_num⟩
  simp only [calculate_improvement]
  rw [if_neg (by norm_num : ¬(-2:ℚ) = 0),
      if_neg (by decide : ¬("AIC":String) = "R2")]
  norm_num

/-- C2: for every metric, the improvement is the undefined value (NaN,
embedded `none`) whenever the baseline is missing, the comparison is
missing, or the baseline equals zero; the zero baseline is guarded, no
division is attempted. -/
theorem calculate_improvement_undefined_cases
    (b c : Option ℚ) (metric : String)
    (h : b = none ∨ c = none ∨ b = some 0) :
    calculate_improvement b c metric = none := by
  rcases h with rfl | rfl | rfl
  · cases c <;> rfl
  · cases b <;> rfl
  · cases c with
    | none => rfl
    | some x => simp [calculate_improvement]

/-- Witness for C2 at the zero-baseline input `(0, 5, RMSE)`. -/
theorem calculate_improvement_undefined_cases_witness :
    ((some 0 : Option ℚ) = none ∨ (some 5 : Option ℚ) = none
        ∨ (some 0 : Option ℚ) = some 0)
      ∧ calculate_improvement (some 0) (some 5) "RMSE" = none :=
  ⟨Or.inr (Or.inr rfl),
   calculate_improvement_undefined_cases (some 0) (some 5) "RMSE"
     (Or.inr (Or.inr rfl))⟩

/-- C3: with both values present and a nonzero baseline, the R2 improvement
is `(c - b) / abs b * 100` and every other metric's improvement is
`(b - c) / b * 100`; numerically, R2 with baseline `0.50` and comparison
`0.60` gives `+20`, and RMSE with the same numbers gives `-20`. -/
theorem calculate_improvement_formulas (b c : ℚ) (metric : String)
    (hb : b ≠ 0) :
    calculate_improvement (some b) (some c) "R2" = some ((c - b) / |b| * 100)
    ∧ (metric ≠ "R2" →
        calculate_improvement (some b) (some c) metric
          = some ((b - c) / b * 100))
    ∧ calculate_improvement (some (1/2)) (some (3/5)) "R2" = some 20
    ∧ calculate_improvement (some (1/2)) (some (3/5)) "RMSE" = some (-20) := by
  refine ⟨?_, ?_, ?_, ?_⟩
  · simp only [calculate_improvement]
    rw [if_neg hb]
    simp
  · intro hm
    simp only [calculate_improvement]
    rw [if_neg hb, if_neg hm]
  · simp only [calculate_improvement]
    rw [if_neg (by norm_num : ¬(1/2:ℚ) = 0)]
    norm_num [abs_of_pos (show (0:ℚ) < 1/2 by norm_num)]
  · simp only [calculate_improvement]
    rw [if_neg (by norm_num : ¬(1/2:ℚ) = 0),
        if_neg (by decide : ¬("RMSE":String) = "R2")]
    norm_num

/-- Witness for C3 at baseline `2`, comparison `3`, metric `MAE`. -/
theorem calculate_improvement_formulas_witness :
    (2:ℚ) ≠ 0
    ∧ (calculate_improvement (some 2) (some 3) "R2"
          = some (((3:ℚ) - 2) / |(2:ℚ)| * 100)
        ∧ (("MAE":String) ≠ "R2" →
            calculate_improvement (some 2) (some 3) "MAE"
              = some (((2:ℚ) - 3) / 2 * 100))
        ∧ calculate_improvement (some (1/2)) (some (3/5)) "R2" = some 20
        ∧ calculate_improvement (some (1/2)) (some (3/5)) "RMSE"
            = some (-20)) :=
  ⟨by norm_num, calculate_improvement_formulas 2 3 "MAE" (by norm_num)⟩

/-! ## uniqueAux: membership, nodup and first-appearance order -/

/-- Membership in the first-appearance deduplication. -/
theorem mem_uniqueAux (y : String) :
    ∀ (l seen : List String), y ∈ uniqueAux seen l ↔ (y ∈ l ∧ y ∉ seen) := by
  intro l
  induction l with
  | nil => intro seen; simp [uniqueAux]
  | cons x xs ih =>
    intro seen
    by_cases hx : x ∈ seen
    · rw [uniqueAux, if_pos hx, ih]
      constructor
      · rintro ⟨hy, hns⟩
        exact ⟨List.mem_cons_of_mem _ hy, hns⟩
      · rintro ⟨hy, hns⟩
        rcases List.mem_cons.mp hy with rfl | hy
        · exact absurd hx hns
        · exact ⟨hy, hns⟩
    · rw [uniqueAux, if_neg hx]
      constructor
      · intro hy
        rcases List.mem_cons.mp hy with rfl | hy
        · exact ⟨List.mem_cons_self _ _, hx⟩
        · obtain ⟨h1, h2⟩ := (ih _).mp hy
          refine ⟨List.mem_cons_of_mem _ h1,
            fun hs => h2 (List.mem_cons_of_mem _ hs)⟩
      · rintro ⟨hy, hns⟩
        rcases List.mem_cons.mp hy with rfl | hy
        · exact List.mem_cons_self _ _
        · by_cases hxy : y = x
          · subst hxy; exact List.mem_cons_self _ _
          · exact List.mem_cons_of_mem _ ((ih _).mpr ⟨hy, by
              intro hmem
              rcases List.mem_cons.mp hmem with h | h
              · exact hxy h
              · exact hns h⟩)

/-- First-appearance index shifts by one under an unequal head. -/
theorem firstIdx_cons_of_ne (y x : String) (l : List String) (h : y ≠ x) :
    firstIdx y (x :: l) = firstIdx y l + 1 := by
  simp only [firstIdx, if_neg (Ne.symm h)]

/-- The deduplicated list is strictly ordered by first-appearance index. -/
theorem uniqueAux_pairwise (l : List String) :
    ∀ seen, List.Pairwise (fun a c => firstIdx a l < firstIdx c l)
      (uniqueAux seen l) := by
  induction l with
  | nil => intro seen; simp [uniqueAux]
  | cons x xs ih =>
    intro seen
    by_cases hx : x ∈ seen
    · rw [uniqueAux, if_pos hx]
      refine (ih seen).imp_of_mem ?_
      intro a c ha hc hlt
      have hna : a ≠ x := by
        rintro rfl
        exact ((mem_uniqueAux a xs seen).mp ha).2 hx
      have hnc : c ≠ x := by
        rintro rfl
        exact ((mem_uniqueAux c xs seen).mp hc).2 hx
      rw [firstIdx_cons_of_ne a x xs hna, firstIdx_cons_of_ne c x xs hnc]
      omega
    · rw [uniqueAux, if_neg hx]
      constructor
      · intro c hc
        have hnc : c ≠ x := by
          rintro rfl
          exact ((mem_uniqueAux c xs (c :: seen)).mp hc).2 (List.mem_cons_self _ _)
        have h0 : firstIdx x (x :: xs) = 0 := by
          simp [firstIdx]
        rw [h0, firstIdx_cons_of_ne c x xs hnc]
        omega
      · refine (ih (x :: seen)).imp_of_mem ?_
        intro a c ha hc hlt
        have hna : a ≠ x := by
          rintro rfl
          exact ((mem_uniqueAux a xs (a :: seen)).mp ha).2 (List.mem_cons_self _ _)
        have hnc : c ≠ x := by
          rintro rfl
          exact ((mem_uniqueAux c xs (c :: seen)).mp hc).2 (List.mem_cons_self _ _)
        rw [firstIdx_cons_of_ne a x xs hna, firstIdx_cons_of_ne c x xs hnc]
        omega

/-- The deduplicated list has no duplicates. -/
theorem uniqueAux_nodup (l : List String) (seen : List String) :
    (uniqueAux seen l).Nodup := by
  refine (uniqueAux_pairwise l seen).imp ?_
  intro a c h
  rintro rfl
  exact lt_irrefl _ h

/-- C4: the bare model names of the table's rows are exactly the
first-appearance deduplication of the baseline partition's bare names — a
name is a row iff some baseline-partition record carries it (models present
only in other partitions yield no row), rows are duplicate-free, and they
appear in the order of first appearance within the baseline partition. -/
theorem comparison_table_rows_from_baseline
    (records : List MetricRecord) (metric b e d : String) :
    ((create_comparison_table records metric b e d).map ComparisonRow.Model
        = uniqueAux [] ((scenarioPartition records b).map
            (fun r => bareName b e d r.Model)))
    ∧ (∀ m, m ∈ (create_comparison_table records metric b e d).map
            ComparisonRow.Model
          ↔ ∃ r ∈ scenarioPartition records b, bareName b e d r.Model = m)
    ∧ ((create_comparison_table records metric b e d).map
        ComparisonRow.Model).Nodup
    ∧ List.Pairwise
        (fun m1 m2 =>
          firstIdx m1 ((scenarioPartition records b).map
              (fun r => bareName b e d r.Model))
            < firstIdx m2 ((scenarioPartition records b).map
                (fun r => bareName b e d r.Model)))
        ((create_comparison_table records metric b e d).map
          ComparisonRow.Model) := by
  have key : (create_comparison_table records metric b e d).map
      ComparisonRow.Model
      = uniqueAux [] ((scenarioPartition records b).map
          (fun r => bareName b e d r.Model)) := by
    unfold create_comparison_table
    rw [List.map_map]
    have hcomp : (ComparisonRow.Model ∘ buildRow records metric b e d) = id :=
      funext fun m => rfl
    rw [hcomp, List.map_id]
  refine ⟨key, ?_, ?_, ?_⟩
  · intro m
    rw [key, mem_uniqueAux]
    simp [List.mem_map]
  · rw [key]; exact uniqueAux_nodup _ _
  · rw [key]; exact uniqueAux_pairwise _ _

/-- Witness for C4: first conjunct evaluated on Scenario 1's records. -/
theorem comparison_table_rows_from_baseline_witness :
    (create_comparison_table recordsARIMA "RMSE" "Base" "Exog" "EEMD").map
        ComparisonRow.Model
      = uniqueAux [] ((scenarioPartition recordsARIMA "Base").map
          (fun r => bareName "Base" "Exog" "EEMD" r.Model)) :=
  (comparison_table_rows_from_baseline recordsARIMA "RMSE" "Base" "Exog"
    "EEMD").1

/-- C5: every produced row's scenario cells follow the display rule — the
exogenous and EEMD cells render the scenario value found for that row's
model with its improvement, the improvement columns hold exactly
`calculate_improvement` of the looked-up values, the baseline cell is the
improvement-free rendering of the baseline value; and the rendering itself
is `N/A` for a missing value, `value (imp%)` (3 decimals, always-signed one
decimal) when both exist, and the bare 3-decimal value when the improvement
is undefined — which includes every zero-baseline row, since a zero
baseline forces an undefined improvement. -/
theorem comparison_table_display_strings
    (records : List MetricRecord) (metric b e d : String) :
    (∀ row ∈ create_comparison_table records metric b e d,
        row.Exogenous = formatScenarioCell
            (firstMetricValue (scenarioPartition records e) b e d row.Model metric)
            row.exog_imp
        ∧ row.EEMD = formatScenarioCell
            (firstMetricValue (scenarioPartition records d) b e d row.Model metric)
            row.eemd_imp
        ∧ row.exog_imp = calculate_improvement
            (firstMetricValue (scenarioPartition records b) b e d row.Model metric)
            (firstMetricValue (scenarioPartition records e) b e d row.Model metric)
            metric
        ∧ row.eemd_imp = calculate_improvement
            (firstMetricValue (scenarioPartition records b) b e d row.Model metric)
            (firstMetricValue (scenarioPartition records d) b e d row.Model metric)
            metric
        ∧ row.Baseline = formatScenarioCell
            (firstMetricValue (scenarioPartition records b) b e d row.Model metric)
            none)
    ∧ (∀ imp, formatScenarioCell none imp = "N/A")
    ∧ (∀ x p, formatScenarioCell (some x) (some p)
        = formatFixed 3 x ++ " (" ++ formatSignedFixed 1 p ++ "%)")
    ∧ (∀ x, formatScenarioCell (some x) none = formatFixed 3 x)
    ∧ (∀ c m, calculate_improvement (some 0) c m = none) := by
  refine ⟨?_, fun _ => rfl, fun _ _ => rfl, fun _ => rfl, ?_⟩
  · intro row hrow
    unfold create_comparison_table at hrow
    obtain ⟨m, hm, rfl⟩ := List.mem_map.mp hrow
    refine ⟨rfl, rfl, rfl, rfl, ?_⟩
    show (buildRow records metric b e d m).Baseline
        = formatScenarioCell
            (firstMetricValue (scenarioPartition records b) b e d m metric) none
    cases h : firstMetricValue (scenarioPartition records b) b e d m metric with
    | none => simp [buildRow, formatScenarioCell, h]
    | some x => simp [buildRow, formatScenarioCell, h]
  · intro c m
    cases c <;> simp [calculate_improvement]

/-- Witness for C5: the membership hypothesis discharged on Scenario 1's
single row; the exogenous-cell equation is obtained for it. -/
theorem comparison_table_display_strings_witness :
    rowARIMA ∈ create_comparison_table recordsARIMA "RMSE" "Base" "Exog" "EEMD"
    ∧ rowARIMA.Exogenous = formatScenarioCell
        (firstMetricValue (scenarioPartition recordsARIMA "Exog")
          "Base" "Exog" "EEMD" rowARIMA.Model "RMSE")
        rowARIMA.exog_imp :=
  ⟨List.Mem.head _,
   ((comparison_table_display_strings recordsARIMA "RMSE" "Base" "Exog"
      "EEMD").1 rowARIMA (List.Mem.head _)).1⟩

/-! ## Partition semantics: regex search versus literal substring -/

/-- On metacharacter-free patterns the one-step matcher is the literal
prefix check. -/
theorem reMatchHere_eq_prefixCheck :
    ∀ (pat s : List Char), pat.all regexPlainChar = true →
      reMatchHere pat s = pat.isPrefixOf s := by
  intro pat
  induction pat with
  | nil => intro s _; cases s <;> rfl
  | cons p ps ih =>
    intro s hall
    have hp : regexPlainChar p = true :=
      (List.all_eq_true.mp hall) p (List.mem_cons_self _ _)
    have hpd : p ≠ '.' := by
      rintro rfl
      exact absurd hp (by decide)
    have hps : ps.all regexPlainChar = true := by
      rw [List.all_eq_true] at hall ⊢
      exact fun c hc => hall c (List.mem_cons_of_mem _ hc)
    cases s with
    | nil => rfl
    | cons c cs =>
      show ((if p = '.' then c != '\n' else p == c) && reMatchHere ps cs) = _
      rw [if_neg hpd, ih cs hps]
      rfl

/-- On metacharacter-free patterns regex search is literal containment. -/
theorem reSearch_eq_literal :
    ∀ (pat s : List Char), pat.all regexPlainChar = true →
      reSearchAux pat s = listContainsSub pat s := by
  intro pat s hall
  induction s with
  | nil =>
    simp only [reSearchAux, listContainsSub]
    rw [reMatchHere_eq_prefixCheck pat [] hall]
    cases pat <;> rfl
  | cons c cs ih =>
    simp only [reSearchAux, listContainsSub]
    rw [reMatchHere_eq_prefixCheck pat (c :: cs) hall, ih]

/-- C9 counterexample: with label `"."`, the record `{Model := "AB"}` lands
in the scenario partition (pandas `str.contains` treats the label as a
regex and `.` matches any character), yet `"."` is not a literal substring
of `"AB"` — so membership is not equivalent to literal substring
containment. -/
theorem partition_literal_containment_counterexample :
    (scenarioPartition [{ Model := "AB", values := fun _ => none }] "."
        = [{ Model := "AB", values := fun _ => none }])
    ∧ strContainsLiteral "AB" "." = false :=
  ⟨rfl, rfl⟩

/-- C9 (amended): a record belongs to a scenario's partition iff its
`Model` string matches the label under Python `re.search` (the pandas
`str.contains` default); when the label contains no regex metacharacters
this coincides with literal substring containment. -/
theorem partition_membership_semantics
    (records : List MetricRecord) (label : String) (r : MetricRecord) :
    (r ∈ scenarioPartition records label
        ↔ r ∈ records ∧ pdStrContains r.Model label = true)
    ∧ (label.data.all regexPlainChar = true →
        (r ∈ scenarioPartition records label
          ↔ r ∈ records ∧ strContainsLiteral r.Model label = true)) := by
  constructor
  · exact List.mem_filter
  · intro hplain
    unfold scenarioPartition
    rw [List.mem_filter]
    have heq : pdStrContains r.Model label = strContainsLiteral r.Model label := by
      unfold pdStrContains strContainsLiteral
      exact reSearch_eq_literal label.data r.Model.data hplain
    rw [heq]

/-- Witness for C9's amended theorem at the concrete record
`ARIMA-Base` and label `Base`. -/
theorem partition_membership_semantics_witness :
    (recBase ∈ scenarioPartition [recBase] "Base"
        ↔ recBase ∈ [recBase] ∧ pdStrContains recBase.Model "Base" = true)
    ∧ ("Base".data.all regexPlainChar = true →
        (recBase ∈ scenarioPartition [recBase] "Base"
          ↔ recBase ∈ [recBase]
              ∧ strContainsLiteral recBase.Model "Base" = true)) :=
  partition_membership_semantics [recBase] "Base" recBase

/-- C7: on the Scenario 1 input — records `ARIMA-Base` with RMSE 10 and
`ARIMA-Exog` with RMSE 8, labels `(Base, Exog, EEMD)`, metric RMSE — the
table is exactly one row for the bare name `ARIMA`, with baseline cell
`10.000`, exogenous cell `8.000 (+20.0%)`, EEMD cell `N/A` (and raw
improvements `+20` and undefined). -/
theorem comparison_table_arima_scenario :
    create_comparison_table recordsARIMA "RMSE" "Base" "Exog" "EEMD"
      = [{ Model := "ARIMA", Baseline := "10.000",
           Exogenous := "8.000 (+20.0%)", EEMD := "N/A",
           exog_imp := some 20, eemd_imp := none }] := by
  have hstep : create_comparison_table recordsARIMA "RMSE" "Base" "Exog" "EEMD"
      = [buildRow recordsARIMA "RMSE" "Base" "Exog" "EEMD" "ARIMA"] := rfl
  have hbv : firstMetricValue (scenarioPartition recordsARIMA "Base")
      "Base" "Exog" "EEMD" "ARIMA" "RMSE" = some 10 := rfl
  have hev : firstMetricValue (scenarioPartition recordsARIMA "Exog")
      "Base" "Exog" "EEMD" "ARIMA" "RMSE" = some 8 := rfl
  have hdv : firstMetricValue (scenarioPartition recordsARIMA "EEMD")
      "Base" "Exog" "EEMD" "ARIMA" "RMSE" = none := rfl
  have himp : calculate_improvement (some 10) (some 8) "RMSE" = some 20 := by
    simp only [calculate_improvement]
    rw [if_neg (by norm_num : ¬(10:ℚ) = 0),
        if_neg (by decide : ¬("RMSE":String) = "R2")]
    norm_num
  have himp2 : calculate_improvement (some 10) none "RMSE" = none := rfl
  have hf10 : formatFixed 3 (10:ℚ) = "10.000" := by
    unfold formatFixed fixedDigits
    rw [roundHalfEven_eval 10 3 10000 (by norm_num),
        if_neg (by norm_num : ¬ (10:ℚ) < 0)]
    decide
  have hf8 : formatFixed 3 (8:ℚ) = "8.000" := by
    unfold formatFixed fixedDigits
    rw [roundHalfEven_eval 8 3 8000 (by norm_num),
        if_neg (by norm_num : ¬ (8:ℚ) < 0)]
    decide
  have hs20 : formatSignedFixed 1 (20:ℚ) = "+20.0" := by
    unfold formatSignedFixed fixedDigits
    rw [roundHalfEven_eval 20 1 200 (by norm_num),
        if_neg (by norm_num : ¬ (20:ℚ) < 0)]
    decide
  rw [hstep]
  simp only [buildRow, hbv, hev, hdv, himp, himp2, formatScenarioCell,
    hf10, hf8, hs20]
  decide

/-! ## Workbook-level helper lemmas -/

/-- Every element of a successful `mapExcept` run comes from a successful
application of the step function to some list element. -/
theorem mapExcept_ok_mem {α β ε : Type} (f : α → Except ε β) :
    ∀ (l : List α) (out : List β), mapExcept f l = Except.ok out →
      ∀ y ∈ out, ∃ x ∈ l, f x = Except.ok y := by
  intro l
  induction l with
  | nil =>
    intro out h y hy
    simp only [mapExcept] at h
    cases h
    exact absurd hy (List.not_mem_nil y)
  | cons x xs ih =>
    intro out h y hy
    simp only [mapExcept] at h
    cases hfx : f x with
    | error msg => rw [hfx] at h; cases h
    | ok y0 =>
      rw [hfx] at h
      cases hrest : mapExcept f xs with
      | error msg => rw [hrest] at h; cases h
      | ok ys =>
        rw [hrest] at h
        cases h
        rcases List.mem_cons.mp hy with rfl | hy2
        · exact ⟨x, List.mem_cons_self _ _, hfx⟩
        · obtain ⟨x2, hx2, hfx2⟩ := ih ys hrest y hy2
          exact ⟨x2, List.mem_cons_of_mem _ hx2, hfx2⟩

/-- A sheet of a successfully produced workbook is the successful result of
`buildMetricSheet` for its metric. -/
theorem styled_excel_sheet_src
    (records : List MetricRecord) (b e d : String) (wb : WorkbookModel)
    (metric : String) (sheet : MetricSheet)
    (hwb : create_styled_excel records b e d = Except.ok wb)
    (hmem : (metric, sheet) ∈ wb.sheets) :
    buildMetricSheet records metric b e d = Except.ok sheet := by
  unfold create_styled_excel at hwb
  cases h1 : mapExcept (buildMetricSheetNamed records b e d) metricsList with
  | error msg => rw [h1] at hwb; cases hwb
  | ok sheets =>
    rw [h1] at hwb
    cases h2 : mapExcept (buildSummaryRow records b e d) metricsList with
    | error msg => rw [h2] at hwb; cases hwb
    | ok rows =>
      rw [h2] at hwb
      cases hwb
      obtain ⟨m, hm, hok⟩ :=
        mapExcept_ok_mem _ metricsList sheets h1 (metric, sheet) hmem
      unfold buildMetricSheetNamed at hok
      cases hbs : buildMetricSheet records m b e d with
      | error msg => rw [hbs] at hok; cases hok
      | ok s =>
        rw [hbs] at hok
        cases hok
        exact hbs

/-- A column whose entries are all missing has a missing (NaN) mean. -/
theorem seriesMean_all_missing (xs : List (Option ℚ))
    (h : ∀ x ∈ xs, x = none) : seriesMean xs = none := by
  unfold seriesMean
  have hnil : xs.filterMap id = [] :=
    List.filterMap_eq_nil_iff.mpr (fun a ha => h a ha)
  rw [hnil]
  rfl

/-- C6: in every sheet of a produced workbook, each `Average Improvement`
value is the skip-missing arithmetic mean (`seriesMean`) of that sheet's
improvement column, and a column whose improvements are all undefined
yields an undefined (NaN) average, not zero. -/
theorem sheet_average_improvement
    (records : List MetricRecord) (b e d : String) (wb : WorkbookModel)
    (metric : String) (sheet : MetricSheet)
    (hwb : create_styled_excel records b e d = Except.ok wb)
    (hmem : (metric, sheet) ∈ wb.sheets) :
    sheet.avgExog = seriesMean ((create_comparison_table records metric b e d).map
        ComparisonRow.exog_imp)
    ∧ sheet.avgEemd = seriesMean ((create_comparison_table records metric b e d).map
        ComparisonRow.eemd_imp)
    ∧ ((∀ row ∈ create_comparison_table records metric b e d,
          row.exog_imp = none) → sheet.avgExog = none)
    ∧ ((∀ row ∈ create_comparison_table records metric b e d,
          row.eemd_imp = none) → sheet.avgEemd = none) := by
  have hbs := styled_excel_sheet_src records b e d wb metric sheet hwb hmem
  unfold buildMetricSheet at hbs
  by_cases hempty : (create_comparison_table records metric b e d).isEmpty = true
  · rw [if_pos hempty] at hbs; cases hbs
  · rw [if_neg hempty] at hbs
    cases hbs
    refine ⟨rfl, rfl, ?_, ?_⟩
    · intro hall
      refine seriesMean_all_missing _ ?_
      intro x hx
      obtain ⟨row, hrow, rfl⟩ := List.mem_map.mp hx
      exact hall row hrow
    · intro hall
      refine seriesMean_all_missing _ ?_
      intro x hx
      obtain ⟨row, hrow, rfl⟩ := List.mem_map.mp hx
      exact hall row hrow

/-- Witness for C6: hypotheses discharged on Scenario 1's workbook; the
exogenous-average equation is obtained for its RMSE sheet. -/
theorem sheet_average_improvement_witness :
    create_styled_excel recordsARIMA "Base" "Exog" "EEMD" = Except.ok wbARIMA
    ∧ ("RMSE", sheetRMSE_ARIMA) ∈ wbARIMA.sheets
    ∧ sheetRMSE_ARIMA.avgExog
        = seriesMean ((create_comparison_table recordsARIMA "RMSE"
            "Base" "Exog" "EEMD").map ComparisonRow.exog_imp) :=
  ⟨rfl, List.Mem.head _,
   (sheet_average_improvement recordsARIMA "Base" "Exog" "EEMD" wbARIMA
      "RMSE" sheetRMSE_ARIMA rfl (List.Mem.head _)).1⟩

/-- Case analysis of the conditional styling: good iff strictly positive,
bad iff strictly negative, unstyled iff undefined or exactly zero. -/
theorem improvementStyle_iff (imp : Option ℚ) :
    (improvementStyle imp = ImpStyle.good ↔ ∃ v, imp = some v ∧ 0 < v)
    ∧ (improvementStyle imp = ImpStyle.bad ↔ ∃ v, imp = some v ∧ v < 0)
    ∧ (improvementStyle imp = ImpStyle.unstyled
        ↔ (imp = none ∨ imp = some 0)) := by
  cases imp with
  | none => simp [improvementStyle]
  | some v =>
    simp only [improvementStyle, Option.some.injEq]
    rcases lt_trichotomy v 0 with hv | rfl | hv
    · rw [if_neg (not_lt.mpr hv.le), if_pos hv]
      simp [hv, lt_asymm hv, hv.ne]
    · rw [if_neg (lt_irrefl 0), if_neg (lt_irrefl 0)]
      simp [lt_irrefl]
    · rw [if_pos hv]
      simp [hv, lt_asymm hv, hv.ne.symm]

/-- C8: every data row written to a per-metric sheet of a produced workbook
renders some comparison row, and its exogenous / EEMD cells carry the good
style exactly when the corresponding improvement is present and strictly
positive, the bad style exactly when present and strictly negative, and no
improvement styling exactly when the improvement is undefined or zero. -/
theorem sheet_improvement_styling
    (records : List MetricRecord) (b e d : String) (wb : WorkbookModel)
    (metric : String) (sheet : MetricSheet) (dr : SheetDataRow)
    (hwb : create_styled_excel records b e d = Except.ok wb)
    (hmem : (metric, sheet) ∈ wb.sheets)
    (hdr : dr ∈ sheet.dataRows) :
    ∃ row, row ∈ create_comparison_table records metric b e d
      ∧ dr = renderDataRow row
      ∧ (dr.exogStyle = ImpStyle.good ↔ ∃ v, row.exog_imp = some v ∧ 0 < v)
      ∧ (dr.exogStyle = ImpStyle.bad ↔ ∃ v, row.exog_imp = some v ∧ v < 0)
      ∧ (dr.exogStyle = ImpStyle.unstyled
          ↔ (row.exog_imp = none ∨ row.exog_imp = some 0))
      ∧ (dr.eemdStyle = ImpStyle.good ↔ ∃ v, row.eemd_imp = some v ∧ 0 < v)
      ∧ (dr.eemdStyle = ImpStyle.bad ↔ ∃ v, row.eemd_imp = some v ∧ v < 0)
      ∧ (dr.eemdStyle = ImpStyle.unstyled
          ↔ (row.eemd_imp = none ∨ row.eemd_imp = some 0)) := by
  have hbs := styled_excel_sheet_src records b e d wb metric sheet hwb hmem
  unfold buildMetricSheet at hbs
  by_cases hempty : (create_comparison_table records metric b e d).isEmpty = true
  · rw [if_pos hempty] at hbs; cases hbs
  · rw [if_neg hempty] at hbs
    cases hbs
    obtain ⟨row, hrow, rfl⟩ := List.mem_map.mp hdr
    refine ⟨row, hrow, rfl, ?_, ?_, ?_, ?_, ?_, ?_⟩
    · exact (improvementStyle_iff row.exog_imp).1
    · exact (improvementStyle_iff row.exog_imp).2.1
    · exact (improvementStyle_iff row.exog_imp).2.2
    · exact (improvementStyle_iff row.eemd_imp).1
    · exact (improvementStyle_iff row.eemd_imp).2.1
    · exact (improvementStyle_iff row.eemd_imp).2.2

/-- Witness for C8: hypotheses discharged on Scenario 1's workbook, RMSE
sheet and its first data row. -/
theorem sheet_improvement_styling_witness :
    create_styled_excel recordsARIMA "Base" "Exog" "EEMD" = Except.ok wbARIMA
    ∧ ("RMSE", sheetRMSE_ARIMA) ∈ wbARIMA.sheets
    ∧ drARIMA ∈ sheetRMSE_ARIMA.dataRows
    ∧ (∃ row, row ∈ create_comparison_table recordsARIMA "RMSE"
            "Base" "Exog" "EEMD"
        ∧ drARIMA = renderDataRow row
        ∧ (drARIMA.exogStyle = ImpStyle.good
            ↔ ∃ v, row.exog_imp = some v ∧ 0 < v)
        ∧ (drARIMA.exogStyle = ImpStyle.bad
            ↔ ∃ v, row.exog_imp = some v ∧ v < 0)
        ∧ (drARIMA.exogStyle = ImpStyle.unstyled
            ↔ (row.exog_imp = none ∨ row.exog_imp = some 0))
        ∧ (drARIMA.eemdStyle = ImpStyle.good
            ↔ ∃ v, row.eemd_imp = some v ∧ 0 < v)
        ∧ (drARIMA.eemdStyle = ImpStyle.bad
            ↔ ∃ v, row.eemd_imp = some v ∧ v < 0)
        ∧ (drARIMA.eemdStyle = ImpStyle.unstyled
            ↔ (row.eemd_imp = none ∨ row.eemd_imp = some 0))) :=
  ⟨rfl, List.Mem.head _, List.Mem.head _,
   sheet_improvement_styling recordsARIMA "Base" "Exog" "EEMD" wbARIMA
     "RMSE" sheetRMSE_ARIMA drARIMA rfl (List.Mem.head _) (List.Mem.head _)⟩

/-- C10: when no record's `Model` matches the baseline label, every
metric's comparison table is empty (a frame built from an empty record
list, which in pandas carries no columns at all), and `create_styled_excel`
raises the missing-column `KeyError` on the very first metric — it returns
an error, so the workbook save is never reached. -/
theorem empty_baseline_errors
    (records : List MetricRecord) (b e d : String)
    (h : ∀ r ∈ records, pdStrContains r.Model b = false) :
    (∀ metric, create_comparison_table records metric b e d = [])
    ∧ create_styled_excel records b e d
        = Except.error "KeyError: exog_imp" := by
  have hpart : scenarioPartition records b = [] := by
    unfold scenarioPartition
    rw [List.filter_eq_nil_iff]
    intro a ha
    simp [h a ha]
  have htab : ∀ metric, create_comparison_table records metric b e d = [] := by
    intro metric
    unfold create_comparison_table
    rw [hpart]
    rfl
  refine ⟨htab, ?_⟩
  have hsheet : buildMetricSheet records "RMSE" b e d
      = Except.error "KeyError: exog_imp" := by
    unfold buildMetricSheet
    rw [htab "RMSE"]
    rfl
  have hnamed : buildMetricSheetNamed records b e d "RMSE"
      = Except.error "KeyError: exog_imp" := by
    unfold buildMetricSheetNamed
    rw [hsheet]
  have hmap : mapExcept (buildMetricSheetNamed records b e d) metricsList
      = Except.error "KeyError: exog_imp" := by
    unfold metricsList
    simp only [mapExcept]
    rw [hnamed]
  unfold create_styled_excel
  rw [hmap]

/-- Witness for C10 on a one-record input whose model matches no label. -/
theorem empty_baseline_errors_witness :
    (∀ r ∈ recordsNoBase, pdStrContains r.Model "Base" = false)
    ∧ ((∀ metric, create_comparison_table recordsNoBase metric
          "Base" "Exog" "EEMD" = [])
        ∧ create_styled_excel recordsNoBase "Base" "Exog" "EEMD"
            = Except.error "KeyError: exog_imp") :=
  ⟨by decide,
   empty_baseline_errors recordsNoBase "Base" "Exog" "EEMD" (by decide)⟩
